import Mathlib

/-!
Verification of the wcode repository (Ollama tool-calling demo scripts).

The development shallowly embeds the decision logic of
`src/ollama_tool_calling.py` and `src/test_ollama.py`:

* a model of decoded JSON values and of the Python operations the scripts
  apply to them (`in`, subscription, truthiness);
* the tool-call extractor of `main` (structured `tool_calls` list versus a
  JSON object embedded in the textual `content`);
* the tool-schema builder of `OllamaClient.chat_with_tools` and the type
  mapping `OllamaClient._get_json_type`;
* the dispatcher of `main` (registry lookup, invocation, exception capture)
  together with the `calculate` and `get_weather` tool functions;
* `ConversationLogger.log_message` with the file system modelled as the
  JSON array currently stored in the log file;
* the streaming read loop of `OllamaClient.test_streaming_chat`.

Calls to the Python standard library `json.loads` are treated as an
external collaborator: functions that parse take an explicit
`parse : String → Option Json` argument, where `none` models a raised
`json.JSONDecodeError`.  Concrete instantiations used in witnesses record
the actual behaviour of `json.loads` on the strings involved.
-/

namespace OllamaDemo

/-- A decoded JSON value, as produced by `json.loads`.  Python `None` is
identified with `null` (as `json.loads` decodes JSON `null` to `None`, and
`dict.get` returns `None` for a missing key).  Numbers are modelled as exact
rationals; the demo only ever works with small integer arguments, on which
Python's int/float arithmetic agrees with `Rat` arithmetic. -/
inductive Json where
  | null : Json
  | bool (b : Bool) : Json
  | num (q : Rat) : Json
  | str (s : String) : Json
  | arr (elements : List Json) : Json
  | obj (entries : List (String × Json)) : Json

/-- Exceptions other than `json.JSONDecodeError` that the embedded Python
fragments can raise.  The scripts catch `JSONDecodeError` (and, around tool
invocation only, `Exception`); any of these escaping models a crash. -/
inductive PyError where
  | typeError : PyError
  | keyError : PyError
  | attributeError : PyError

/-- Python truthiness of a decoded JSON value (`bool(x)`). -/
def truthy : Json → Bool
  | .null => false
  | .bool b => b
  | .num q => q != 0
  | .str s => s != ""
  | .arr elements => !elements.isEmpty
  | .obj entries => !entries.isEmpty

/-- Substring test, modelling Python `needle in haystack` for strings.
Python's `"" in s` is `True`; for a non-empty needle, `s.splitOn needle`
has at least two parts exactly when the needle occurs in `s`. -/
def strContains (needle hay : String) : Bool :=
  if needle = "" then true else (hay.splitOn needle).length != 1

/-- Python `key in value` for a string `key` and a decoded JSON `value`:
key membership for a dict, substring test for a string, list membership
(under `==`, which for a string key only matches equal strings) for a list,
and a `TypeError` (`argument of type ... is not iterable`) otherwise. -/
def pyIn (key : String) : Json → Except PyError Bool
  | .obj entries => .ok (entries.any (fun kv => kv.1 == key))
  | .str s => .ok (strContains key s)
  | .arr elements =>
      .ok (elements.any (fun x => match x with | .str t => t == key | _ => false))
  | _ => .error .typeError

/-- Python `value[key]` for a string `key`: dict lookup (raising `KeyError`
when absent) for a dict, `TypeError` for every other decoded value. -/
def pySubscript : Json → String → Except PyError Json
  | .obj entries, key =>
      match entries.lookup key with
      | some v => .ok v
      | none => .error .keyError
  | _, _ => .error .typeError

/-- Python `value.get(key, default)`: only dicts have `.get`; every other
decoded value raises `AttributeError`. -/
def pyGetDefault (j : Json) (key : String) (dflt : Json) : Except PyError Json :=
  match j with
  | .obj entries => .ok ((entries.lookup key).getD dflt)
  | _ => .error .attributeError

/-- Which response channel produced a tool-call record. -/
inductive Provenance where
  | structured : Provenance
  | embeddedContent : Provenance

/-- A normalized tool-call record: the function name and arguments exactly
as read from the response (`name` is `Json.null` when Python would hold
`None`), plus the provenance tag. -/
structure ToolCallRecord where
  name : Json
  args : Json
  provenance : Provenance

/-- The nested `function` field of a structured tool-call entry, following
the response shape (spec §6): an object with optional `name` and
`arguments` members.  `tool_call.get('function', {}).get('name')` yields
`None` when either level is missing. -/
structure FunctionField where
  name : Option Json := none
  arguments : Option Json := none

/-- One entry of the structured `tool_calls` list of a chat response. -/
structure ToolCallEntry where
  function : Option FunctionField := none

/-- The `message` member of a decoded chat response, as consumed by `main`:
`tool_calls = some l` models the key being present with value `l`, and
`content` is `message.get('content', '')` (so a missing key is the empty
string). -/
structure ChatMessage where
  tool_calls : Option (List ToolCallEntry) := none
  content : String := ""

/-- The record built from one structured entry in `main`:
`func_name = tool_call.get('function', {}).get('name')` and
`func_args = tool_call.get('function', {}).get('arguments', {})`. -/
def structuredRecord (e : ToolCallEntry) : ToolCallRecord :=
  match e.function with
  | none => { name := Json.null, args := Json.obj [], provenance := .structured }
  | some f =>
      { name := f.name.getD Json.null
      , args := f.arguments.getD (Json.obj [])
      , provenance := .structured }

/-- The embedded-content extraction path of `main` (the
`json.loads(content)` branch): skipped for falsy content; a parse failure
is caught (`except json.JSONDecodeError: pass`); otherwise
`'name' in tool_call_data and 'arguments' in tool_call_data` is evaluated
and, when it holds, `tool_call_data['name']` and
`tool_call_data['arguments']` form a single record.  The `in` test and the
subscriptions can raise (`TypeError`) on non-dict parses; such exceptions
are not caught by the surrounding handler. -/
def extractEmbedded (parse : String → Option Json) (content : String) :
    Except PyError (List ToolCallRecord) :=
  if content = "" then .ok []
  else
    match parse content with
    | none => .ok []
    | some j => do
        let hasName ← pyIn "name" j
        if hasName then do
          let hasArgs ← pyIn "arguments" j
          if hasArgs then do
            let n ← pySubscript j "name"
            let a ← pySubscript j "arguments"
            .ok [{ name := n, args := a, provenance := .embeddedContent }]
          else .ok []
        else .ok []

/-- The complete extractor of `main` (lines 281–335): the structured path
runs when `'tool_calls' in message and message['tool_calls']` holds (the
list is present and non-empty) and sets `tool_calls_found`, which guards
the embedded-content path. -/
def extractToolCalls (parse : String → Option Json) (msg : ChatMessage) :
    Except PyError (List ToolCallRecord) :=
  match msg.tool_calls with
  | some (e :: es) => .ok ((e :: es).map structuredRecord)
  | _ => extractEmbedded parse msg.content

/-- A Python type annotation, as inspected by `OllamaClient._get_json_type`
through equality tests against `str`, `int`, `float` and `bool`; `other`
covers every remaining annotation. -/
inductive PyType where
  | str : PyType
  | int : PyType
  | float : PyType
  | bool : PyType
  | other (typeName : String) : PyType

/-- Model of `OllamaClient._get_json_type`: convert a Python type annotation to a
JSON schema type tag. -/
def get_json_type : PyType → String
  | .str => "string"
  | .int => "integer"
  | .float => "number"
  | .bool => "boolean"
  | .other _ => "string"

/-- A Python function handle as inspected by `chat_with_tools`: its
`__name__`, its `__doc__` (`none` models `None`), and its
`__annotations__` in declaration order (parameters first, then the
`return` annotation when present). -/
structure PyFunction where
  name : String
  doc : Option String := none
  annotations : List (String × PyType) := []

/-- One property of a built tool definition: the JSON schema type tag and
the generated `Parameter <name>` description. -/
structure ParamSchema where
  type : String
  description : String

/-- One tool definition built by `chat_with_tools` (the
`{"type": "function", "function": {...}}` payload): name, description,
`properties` in insertion order and the `required` list. -/
structure ToolDef where
  name : String
  description : String
  properties : List (String × ParamSchema)
  required : List String

/-- Python `tool.__doc__ or fallback`: the docstring unless it is `None`
or falsy (the empty string). -/
def pyDocOr (doc : Option String) (fallback : String) : String :=
  match doc with
  | some d => if d = "" then fallback else d
  | none => fallback

/-- The tool definition `chat_with_tools` builds for one function: the
loop over `__annotations__` skips the `return` entry and pushes every
other parameter into both `properties` and `required`. -/
def buildToolDef (f : PyFunction) : ToolDef :=
  { name := f.name
  , description := pyDocOr f.doc ("Function: " ++ f.name)
  , properties :=
      (f.annotations.filter (fun p => p.1 ≠ "return")).map
        (fun p => (p.1, { type := get_json_type p.2
                        , description := "Parameter " ++ p.1 }))
  , required := (f.annotations.filter (fun p => p.1 ≠ "return")).map Prod.fst }

/-- The `tool_definitions` list of `chat_with_tools`: one definition per
function, in input order. -/
def buildToolDefs (fs : List PyFunction) : List ToolDef :=
  fs.map buildToolDef

/-- The description clause exactly as the specification claim words it:
the docstring itself whenever `__doc__` is present, the synthesized string
only when it is absent. -/
def descriptionPerClaim (f : PyFunction) : String :=
  match f.doc with
  | some d => d
  | none => "Function: " ++ f.name

/-- The `calculate` tool function (source lines 18–41), with Python
exceptions as `Except.error` carrying the exception message.  Numbers are
exact rationals (see `Json`). -/
def calculate (operation : String) (a b : Rat) : Except String Rat :=
  if operation = "add" then .ok (a + b)
  else if operation = "subtract" then .ok (a - b)
  else if operation = "multiply" then .ok (a * b)
  else if operation = "divide" then
    if b = 0 then .error "Cannot divide by zero"
    else .ok (a / b)
  else .error ("Unknown operation: " ++ operation)

/-- The `get_weather` tool function (source lines 44–54). -/
def get_weather (location : String) : String :=
  "The weather in " ++ location ++ " is sunny with a temperature of 22°C"

/-- Keyword expansion `calculate(**func_args)`: application of expansion of a decoded JSON
arguments value onto `calculate`'s parameters.  A non-dict value, an
unexpected or missing keyword, or (modelling simplification: the demo only
ever passes a string operation and numeric operands) operands outside
string/number raise a `TypeError`, whose message — like every other
exception — is captured by the dispatcher's `except Exception` handler. -/
def calculateKw (args : Json) : Except String Json :=
  match args with
  | .obj kvs =>
      if kvs.all (fun kv => kv.1 == "operation" || kv.1 == "a" || kv.1 == "b") then
        match kvs.lookup "operation", kvs.lookup "a", kvs.lookup "b" with
        | some (Json.str op), some (Json.num a), some (Json.num b) =>
            (calculate op a b).map Json.num
        | some _, some _, some _ =>
            .error "unsupported operand type(s)"
        | _, _, _ =>
            .error "calculate() missing a required keyword-only argument"
      else .error "calculate() got an unexpected keyword argument"
  | _ => .error "argument after ** must be a mapping"

/-- Keyword expansion `get_weather(**func_args)` onto `get_weather`'s
single `location` parameter (non-string locations would be interpolated by
the f-string; the demo only passes strings, and non-dict or wrongly keyed
arguments raise a `TypeError`). -/
def getWeatherKw (args : Json) : Except String Json :=
  match args with
  | .obj kvs =>
      match kvs with
      | [("location", Json.str loc)] => .ok (Json.str (get_weather loc))
      | _ => .error "get_weather() got unexpected arguments"
  | _ => .error "argument after ** must be a mapping"

/-- The in-process name → function registry (`available_functions`). -/
abbrev Registry := List (String × (Json → Except String Json))

/-- Model of `available_functions = \x7b'calculate': calculate, 'get_weather': get_weather\x7d`. -/
def availableFunctions : Registry :=
  [("calculate", calculateKw), ("get_weather", getWeatherKw)]

/-- Lookup `available_functions.get(func_name)`: a dict keyed by strings returns
a function only for an equal string key; any other decoded value (such as
the `None` a nameless record carries) is simply absent. -/
def registryGet (reg : Registry) (name : Json) : Option (Json → Except String Json) :=
  match name with
  | .str s => reg.lookup s
  | _ => none

/-- Outcome of dispatching one tool-call record (spec §4.3): the raw
return value, a captured invocation failure carrying the original
exception message, or a typed not-found outcome carrying the attempted
name. -/
inductive DispatchResult where
  | success (v : Json) : DispatchResult
  | invocationError (msg : String) : DispatchResult
  | notFound (name : Json) : DispatchResult

/-- The dispatch logic of `main` for one record, instrumented with the
list of performed invocations (name and arguments of each actual call):
`function_to_call = available_functions.get(func_name)`; when found, the
call is wrapped in `try/except Exception`; when not, the
`Function not found` branch runs without invoking anything. -/
def dispatchTrace (reg : Registry) (r : ToolCallRecord) :
    DispatchResult × List (Json × Json) :=
  match registryGet reg r.name with
  | some f =>
      (match f r.args with
       | .ok v => .success v
       | .error e => .invocationError e
      , [(r.name, r.args)])
  | none => (.notFound r.name, [])

/-- Dispatch outcome alone. -/
def dispatch (reg : Registry) (r : ToolCallRecord) : DispatchResult :=
  (dispatchTrace reg r).1

/-- One entry of the conversation log, mirroring the dict built by
`ConversationLogger.log_message`. -/
structure LogEntry where
  timestamp : String
  sessionId : String
  sender : String
  message : String
  model : String
  tokensUsed : Int
  responseTimeMs : Int

/-- The logger's in-process state: target path, the session id generated
at construction, and the in-memory `conversation_log` list. -/
structure LoggerState where
  log_file : String
  session_id : String
  conversation_log : List LogEntry

/-- One call to `log_message`, with the wall-clock timestamp
(`datetime.now().isoformat()`) supplied by the environment.  The last
three fields default to `""`, `0`, `0` as in the Python signature. -/
structure LogCall where
  timestamp : String
  sender : String
  message : String
  model : String := ""
  tokens_used : Int := 0
  response_time_ms : Int := 0

/-- The entry `log_message` appends for one call. -/
def mkLogEntry (sessionId : String) (c : LogCall) : LogEntry :=
  { timestamp := c.timestamp
  , sessionId := sessionId
  , sender := c.sender
  , message := c.message
  , model := c.model
  , tokensUsed := c.tokens_used
  , responseTimeMs := c.response_time_ms }

/-- The log file's content, modelled as the JSON array it stores: `none`
while the file does not exist (or was never successfully written), `some
entries` after `json.dump` of `entries` succeeded.  Writes replace the
whole file (`open(self.log_file, 'w')`). -/
abbrev LogFile := Option (List LogEntry)

/-- Length of the on-disk JSON array; an absent file counts as length 0. -/
def diskLen (disk : LogFile) : Nat :=
  (disk.map List.length).getD 0

/-- Model of `ConversationLogger.log_message`: append the entry to the in-memory
list, then rewrite the whole list to the file.  `writeOk` is the
environment's verdict on the `open`/`json.dump` attempt; on failure the
exception is caught and a warning printed (the returned `Bool` is `true`
exactly when the warning was printed).  The call always returns. -/
def log_message (st : LoggerState) (disk : LogFile) (writeOk : Bool) (c : LogCall) :
    LoggerState × LogFile × Bool :=
  let st' := { st with
    conversation_log := st.conversation_log ++ [mkLogEntry st.session_id c] }
  if writeOk then (st', some st'.conversation_log, false)
  else (st', disk, true)

/-- A sequence of `log_message` calls, each paired with its environment's
write verdict. -/
def runLog (st : LoggerState) (disk : LogFile) : List (Bool × LogCall) →
    LoggerState × LogFile
  | [] => (st, disk)
  | (ok, c) :: rest =>
      let r := log_message st disk ok c
      runLog r.1 r.2.1 rest

/-- Whether a decoded streaming chunk fits the response shape of spec §6:
a JSON object whose `message` member, when present, is an object whose
`content` member, when present, is a string. -/
def chunkShaped : Json → Bool
  | .obj kvs =>
      match kvs.lookup "message" with
      | some (.obj mkvs) =>
          match mkvs.lookup "content" with
          | some (.str _) => true
          | some _ => false
          | none => true
      | some _ => false
      | none => true
  | _ => false

/-- The content contributed by one shaped chunk (empty when the chunk has
no `message` or the message has no `content`). -/
def chunkContent : Json → String
  | .obj kvs =>
      match kvs.lookup "message" with
      | some (.obj mkvs) =>
          match mkvs.lookup "content" with
          | some (.str s) => s
          | _ => ""
      | _ => ""
  | _ => ""

/-- The completion flag of one shaped chunk: truthiness of
`chunk.get('done', False)`. -/
def chunkDone : Json → Bool
  | .obj kvs => truthy ((kvs.lookup "done").getD (Json.bool false))
  | _ => false

/-- The content the read loop is specified to accumulate from a chunk
sequence: contents in order, stopping after the first chunk whose `done`
flag is truthy. -/
def collectUntilDone : List Json → String
  | [] => ""
  | c :: rest => chunkContent c ++ (if chunkDone c then "" else collectUntilDone rest)

/-- The streaming read loop of `OllamaClient.test_streaming_chat` (source
lines 128–143) over the response's lines, carrying the accumulated
`full_response`: falsy (empty) lines are skipped, `json.JSONDecodeError`
is caught and the line skipped, a chunk with `message.content` extends the
accumulator, and a truthy `chunk.get('done', False)` breaks the loop. -/
def streamLoop (parse : String → Option Json) :
    List String → String → Except PyError String
  | [], acc => .ok acc
  | line :: rest, acc =>
    if line = "" then streamLoop parse rest acc
    else
      match parse line with
      | none => streamLoop parse rest acc
      | some chunk => do
          let hasMsg ← pyIn "message" chunk
          let acc' ←
            (if hasMsg then do
              let msg ← pySubscript chunk "message"
              let hasContent ← pyIn "content" msg
              if hasContent then do
                let c ← pySubscript msg "content"
                match c with
                | .str s => pure (acc ++ s)
                | _ => Except.error PyError.typeError
              else pure acc
            else pure acc)
          let doneVal ← pyGetDefault chunk "done" (Json.bool false)
          if truthy doneVal then .ok acc' else streamLoop parse rest acc'

/-- A key occurs among the pairs (Python `key in dict`) exactly when
`List.lookup` finds it. -/
theorem any_key_eq_isSome_lookup (kvs : List (String × Json)) (key : String) :
    (kvs.any (fun kv => kv.1 == key)) = (kvs.lookup key).isSome := by
  induction kvs with
  | nil => rfl
  | cons kv tl ih =>
      obtain ⟨k, v⟩ := kv
      by_cases hk : k = key
      · subst hk
        simp [List.lookup]
      · have hbk : (key == k) = false := by simp [Ne.symm hk]
        have hkb : (k == key) = false := by simp [hk]
        simp [List.lookup, hbk, hkb, ih]

/-- Claim C3: the schema builder's type mapping follows the fixed total
rule — `str → "string"`, `int → "integer"`, `float → "number"`,
`bool → "boolean"`, anything else `→ "string"` — it never fails, and every
produced tag is drawn from string/integer/number/boolean. -/
theorem c3_type_mapping_total_rule :
    get_json_type PyType.str = "string" ∧
    get_json_type PyType.int = "integer" ∧
    get_json_type PyType.float = "number" ∧
    get_json_type PyType.bool = "boolean" ∧
    (∀ s, get_json_type (PyType.other s) = "string") ∧
    (∀ t, get_json_type t ∈ ["string", "integer", "number", "boolean"]) := by
  refine ⟨rfl, rfl, rfl, rfl, fun s => rfl, fun t => ?_⟩
  cases t <;> simp [get_json_type]

/-- Claim C5: dispatching a record whose function name is absent from the
registry produces the typed not-found outcome carrying the attempted name,
performs no invocation (the invocation trace is empty), and — being a
total function — never throws. -/
theorem c5_unknown_name_yields_not_found (reg : Registry) (r : ToolCallRecord)
    (h : registryGet reg r.name = none) :
    dispatchTrace reg r = (DispatchResult.notFound r.name, []) := by
  unfold dispatchTrace
  rw [h]

/-- Witness for C5: the registry of `main` does not know `frobnicate`. -/
theorem c5_unknown_name_yields_not_found_witness :
    dispatchTrace availableFunctions
        { name := Json.str "frobnicate", args := Json.obj []
        , provenance := Provenance.structured } =
      (DispatchResult.notFound (Json.str "frobnicate"), []) :=
  c5_unknown_name_yields_not_found availableFunctions _ rfl

/-- Claim C6: dispatching `calculate` with `operation="divide", a=1, b=0`
yields a captured invocation error (the raised `ValueError` message), and
with `operation="multiply", a=15, b=7` yields the value `105`. -/
theorem c6_calculate_dispatch_examples :
    dispatch availableFunctions
        { name := Json.str "calculate"
        , args := Json.obj [("operation", Json.str "divide"), ("a", Json.num 1), ("b", Json.num 0)]
        , provenance := Provenance.structured } =
      DispatchResult.invocationError "Cannot divide by zero" ∧
    dispatch availableFunctions
        { name := Json.str "calculate"
        , args := Json.obj [("operation", Json.str "multiply"), ("a", Json.num 15), ("b", Json.num 7)]
        , provenance := Provenance.structured } =
      DispatchResult.success (Json.num 105) := by
  constructor
  · rfl
  · show DispatchResult.success (Json.num ((15 : Rat) * 7)) =
      DispatchResult.success (Json.num 105)
    norm_num

/-- Claim C8: when the file write fails, `log_message` still appends the
entry to the in-memory list, leaves the file as it was, reports the
warning, and returns normally. -/
theorem c8_write_failure_is_nonfatal (st : LoggerState) (disk : LogFile) (c : LogCall) :
    (log_message st disk false c).1.conversation_log
        = st.conversation_log ++ [mkLogEntry st.session_id c] ∧
    (log_message st disk false c).2.1 = disk ∧
    (log_message st disk false c).2.2 = true :=
  ⟨rfl, rfl, rfl⟩

/-- Claim C1: when the message carries a non-empty structured `tool_calls`
list the extractor emits exactly one structured record per entry, and the
embedded-content path is never taken — the result is the same for any
content and any parser behaviour. -/
theorem c1_structured_path_precedence (parse parseAlt : String → Option Json)
    (msg : ChatMessage) (l : List ToolCallEntry)
    (htc : msg.tool_calls = some l) (hne : l ≠ []) :
    extractToolCalls parse msg = Except.ok (l.map structuredRecord) ∧
    (l.map structuredRecord).length = l.length ∧
    (∀ r ∈ l.map structuredRecord, r.provenance = Provenance.structured) ∧
    (∀ c, extractToolCalls parseAlt { msg with content := c }
            = extractToolCalls parse msg) := by
  cases l with
  | nil => exact absurd rfl hne
  | cons e es =>
      refine ⟨?_, by simp, ?_, ?_⟩
      · simp [extractToolCalls, htc]
      · intro r hr
        rcases List.mem_map.mp hr with ⟨e2, _, rfl⟩
        cases h : e2.function <;> simp [structuredRecord, h]
      · intro c
        simp [extractToolCalls, htc]

/-- A structured entry as the model can emit: `calculate` with one
argument object, used to witness C1. -/
def entryC1 : ToolCallEntry :=
  { function := some
      { name := some (Json.str "calculate")
      , arguments := some (Json.obj
          [("operation", Json.str "multiply"), ("a", Json.num 15), ("b", Json.num 7)]) } }

/-- A message carrying one structured tool call next to distracting
textual content, used to witness C1. -/
def msgC1 : ChatMessage :=
  { tool_calls := some [entryC1], content := "I will use the calculator." }

/-- Witness for C1 at a concrete message. -/
theorem c1_structured_path_precedence_witness :
    extractToolCalls (fun _ => none) msgC1 =
      Except.ok ([entryC1].map structuredRecord) :=
  (c1_structured_path_precedence (fun _ => none) (fun _ => none) msgC1 [entryC1]
    rfl (by simp)).1

/-- Claim C10: a structured entry without a nested function name still
produces a record — name `None`, arguments the empty mapping — which the
dispatcher answers with its not-found branch (no invocation); no entry of
a structured list is ever dropped. -/
theorem c10_nameless_structured_entry_kept (e : ToolCallEntry)
    (h : e.function = none ∨
         ∃ f, e.function = some f ∧ f.name = none ∧ f.arguments = none) :
    structuredRecord e =
      { name := Json.null, args := Json.obj []
      , provenance := Provenance.structured } ∧
    dispatchTrace availableFunctions (structuredRecord e) =
      (DispatchResult.notFound Json.null, []) ∧
    (∀ l : List ToolCallEntry, (l.map structuredRecord).length = l.length) := by
  have hrec : structuredRecord e =
      { name := Json.null, args := Json.obj []
      , provenance := Provenance.structured } := by
    rcases h with h | ⟨f, hf, hn, ha⟩
    · simp [structuredRecord, h]
    · simp [structuredRecord, hf, hn, ha]
  refine ⟨hrec, ?_, fun l => by simp⟩
  rw [hrec]
  rfl

/-- Witness for C10: the entry `{}` (no `function` member at all). -/
theorem c10_nameless_structured_entry_kept_witness :
    structuredRecord { function := none } =
      { name := Json.null, args := Json.obj []
      , provenance := Provenance.structured } ∧
    dispatchTrace availableFunctions (structuredRecord { function := none }) =
      (DispatchResult.notFound Json.null, []) := by
  have h := c10_nameless_structured_entry_kept { function := none } (Or.inl rfl)
  exact ⟨h.1, h.2.1⟩

/-- Oracle fact: `json.loads("5")` evaluates to the integer `5`; no other string is in
this oracle's domain.  Used to refute claim C2. -/
def parseFive : String → Option Json :=
  fun s => if s = "5" then some (Json.num 5) else none

/-- Counterexample to claim C2 as stated: the content `"5"` is a textual
content string, it parses successfully to a value without a `"name"` key,
yet the embedded-content path does not return normally with zero records —
Python raises `TypeError: argument of type 'int' is not iterable` at
`'name' in tool_call_data`, which the `except json.JSONDecodeError`
handler does not catch. -/
theorem c2_counterexample_int_content :
    extractEmbedded parseFive "5" = Except.error PyError.typeError := by
  rfl

/-- Claim C2, amended: the embedded-content path never raises when the
content fails to parse (or is empty) — that is "no tool call detected" —
and, when the content parses to a JSON object, it emits exactly one
embedded-content record if both the `"name"` and `"arguments"` keys are
present and zero records otherwise.  (For a successful parse to a
non-object value the path can raise, as the counterexample shows.) -/
theorem c2_amended_embedded_path (parse : String → Option Json) (content : String) :
    (parse content = none → extractEmbedded parse content = Except.ok []) ∧
    (content = "" → extractEmbedded parse content = Except.ok []) ∧
    (∀ kvs, content ≠ "" → parse content = some (Json.obj kvs) →
      ((kvs.lookup "name" = none ∨ kvs.lookup "arguments" = none) →
        extractEmbedded parse content = Except.ok []) ∧
      (∀ n a, kvs.lookup "name" = some n → kvs.lookup "arguments" = some a →
        extractEmbedded parse content =
          Except.ok [{ name := n, args := a
                     , provenance := Provenance.embeddedContent }])) := by
  refine ⟨?_, ?_, ?_⟩
  · intro hp
    by_cases hc : content = ""
    · simp [extractEmbedded, hc]
    · simp [extractEmbedded, hc, hp]
  · intro hc
    simp [extractEmbedded, hc]
  · intro kvs hc hp
    have pin : ∀ key : String,
        pyIn key (Json.obj kvs) = Except.ok (kvs.lookup key).isSome := by
      intro key
      simp [pyIn, any_key_eq_isSome_lookup]
    constructor
    · intro hmiss
      unfold extractEmbedded
      rw [if_neg hc, hp]
      rcases hmiss with h | h
      · simp only [pin, h, Option.isSome_none]
        rfl
      · cases hn : kvs.lookup "name" with
        | none =>
            simp only [pin, hn, Option.isSome_none]
            rfl
        | some n =>
            simp only [pin, hn, h, Option.isSome_some, Option.isSome_none]
            rfl
    · intro n a hn ha
      unfold extractEmbedded
      rw [if_neg hc, hp]
      simp only [pin, hn, ha, Option.isSome_some, pySubscript]
      rfl

/-- The spec's example embedded tool call (a JSON object literal with
`name` and `arguments` members). -/
def contentC2 : String :=
  "\x7b\"name\": \"calculate\", \"arguments\": \x7b\"operation\": \"add\", \"a\": 1, \"b\": 2\x7d\x7d"

/-- The decoded arguments object of `contentC2`. -/
def argsC2 : Json :=
  Json.obj [("operation", Json.str "add"), ("a", Json.num 1), ("b", Json.num 2)]

/-- Oracle fact: `json.loads` on `contentC2` returns the corresponding object; no other
string is in this oracle's domain. -/
def parseC2 : String → Option Json := fun s =>
  if s = contentC2 then
    some (Json.obj [("name", Json.str "calculate"), ("arguments", argsC2)])
  else none

/-- Witness for the amended C2: the spec's example content produces
exactly one embedded-content record named `calculate`. -/
theorem c2_amended_embedded_path_witness :
    extractEmbedded parseC2 contentC2 =
      Except.ok [{ name := Json.str "calculate", args := argsC2
                 , provenance := Provenance.embeddedContent }] := by
  have h := (c2_amended_embedded_path parseC2 contentC2).2.2
    [("name", Json.str "calculate"), ("arguments", argsC2)] (by decide) rfl
  exact h.2 (Json.str "calculate") argsC2 rfl rfl

/-- A function handle whose docstring is present but empty
(`def f(): ""` gives `f.__doc__ == ""`), refuting claim C4's description
clause. -/
def emptyDocFn : PyFunction :=
  { name := "emptyDoc", doc := some "", annotations := [("x", PyType.int)] }

/-- Counterexample to claim C4 as stated: for a function whose docstring
is present but empty, the builder does not use the docstring — Python's
`tool.__doc__ or f"Function: ..."` treats the falsy empty string like an
absent docstring — so the produced description differs from the claim's
"description equal to the function's docstring". -/
theorem c4_counterexample_empty_docstring :
    (buildToolDef emptyDocFn).description ≠ descriptionPerClaim emptyDocFn := by
  decide

/-- Claim C4, amended: the builder produces exactly one definition per
function, preserving input order; the `return` annotation is excluded;
every remaining declared parameter appears in `required` (which lists
exactly the properties); and the description is the docstring when it is
present and non-empty, otherwise the synthesized `Function: <name>`. -/
theorem c4_amended_schema_builder (fs : List PyFunction) (i : Nat)
    (h : i < fs.length) :
    (buildToolDefs fs).length = fs.length ∧
    ∀ h2 : i < (buildToolDefs fs).length,
      ((buildToolDefs fs).get ⟨i, h2⟩).name = (fs.get ⟨i, h⟩).name ∧
      ((buildToolDefs fs).get ⟨i, h2⟩).description
          = pyDocOr (fs.get ⟨i, h⟩).doc ("Function: " ++ (fs.get ⟨i, h⟩).name) ∧
      ((buildToolDefs fs).get ⟨i, h2⟩).required
          = ((fs.get ⟨i, h⟩).annotations.filter
              (fun p => p.1 ≠ "return")).map Prod.fst ∧
      ((buildToolDefs fs).get ⟨i, h2⟩).properties.map Prod.fst
          = ((buildToolDefs fs).get ⟨i, h2⟩).required ∧
      "return" ∉ ((buildToolDefs fs).get ⟨i, h2⟩).required ∧
      (∀ p ∈ (fs.get ⟨i, h⟩).annotations, p.1 ≠ "return" →
          p.1 ∈ ((buildToolDefs fs).get ⟨i, h2⟩).required) := by
  refine ⟨by simp [buildToolDefs], ?_⟩
  intro h2
  have hd : (buildToolDefs fs).get ⟨i, h2⟩ = buildToolDef (fs.get ⟨i, h⟩) := by
    simp [buildToolDefs]
  rw [hd]
  refine ⟨rfl, rfl, rfl, ?_, ?_, ?_⟩
  · simp [buildToolDef, List.map_map]
  · intro hmem
    simp only [buildToolDef, List.mem_map, List.mem_filter] at hmem
    rcases hmem with ⟨p, ⟨_, hne⟩, hfst⟩
    rw [hfst] at hne
    simp at hne
  · intro p hp hne
    exact List.mem_map.mpr ⟨p, List.mem_filter.mpr ⟨hp, by simp [hne]⟩, rfl⟩

/-- The `calculate` function handle as `chat_with_tools` introspects it:
`__annotations__` lists the three parameters and then the return
annotation; the docstring is non-empty (abbreviated here). -/
def calcPyFn : PyFunction :=
  { name := "calculate"
  , doc := some "Perform basic mathematical operations"
  , annotations :=
      [ ("operation", PyType.str), ("a", PyType.float), ("b", PyType.float)
      , ("return", PyType.float) ] }

/-- Witness for the amended C4 at the `calculate` handle. -/
theorem c4_amended_schema_builder_witness :
    (buildToolDefs [calcPyFn]).length = 1 ∧
    ((buildToolDefs [calcPyFn]).get ⟨0, by decide⟩).required
      = ["operation", "a", "b"] := by
  have h := c4_amended_schema_builder [calcPyFn] 0 (by decide)
  refine ⟨h.1, ?_⟩
  rw [(h.2 (by decide)).2.2.1]
  decide

/-- Fresh logger state as `main` constructs it (session id arbitrary). -/
def logSt0 : LoggerState :=
  { log_file := "ollama_tool_calling_log.json"
  , session_id := "20260101-0a1b2c3d"
  , conversation_log := [] }

/-- First logged call (its write will fail in the counterexample). -/
def logCall1 : LogCall :=
  { timestamp := "2026-01-01T10:00:00", sender := "User", message := "hello" }

/-- Second logged call (its write succeeds). -/
def logCall2 : LogCall :=
  { timestamp := "2026-01-01T10:00:01", sender := "Assistant", message := "hi" }

/-- Counterexample to claim C7 as stated: in a sequence where the first
append's write fails and the second succeeds, the second (successful) call
rewrites the whole in-memory list, so the on-disk array jumps from length
0 to length 2 — it does not grow by exactly one. -/
theorem c7_counterexample_growth_after_failure :
    (log_message logSt0 none false logCall1).2.1 = none ∧
    (log_message
        (log_message logSt0 none false logCall1).1
        (log_message logSt0 none false logCall1).2.1
        true logCall2).2.2 = false ∧
    diskLen (log_message
        (log_message logSt0 none false logCall1).1
        (log_message logSt0 none false logCall1).2.1
        true logCall2).2.1 = 2 ∧
    diskLen (log_message logSt0 none false logCall1).2.1 = 0 ∧
    (2 : Nat) ≠ 0 + 1 := by
  exact ⟨rfl, rfl, rfl, rfl, by decide⟩

/-- Claim C7, amended: every successful append leaves the file holding a
valid JSON array equal to the full accumulated in-memory list, whose
length is the previous in-memory length plus one; whenever the on-disk
array matched the in-memory list before the call (as it does when no
earlier write failed), the on-disk length grows by exactly one. -/
theorem c7_amended_logger_append (st : LoggerState) (disk : LogFile) (c : LogCall) :
    (log_message st disk true c).2.1
        = some ((log_message st disk true c).1.conversation_log) ∧
    (log_message st disk true c).1.conversation_log
        = st.conversation_log ++ [mkLogEntry st.session_id c] ∧
    (disk.getD [] = st.conversation_log →
        diskLen (log_message st disk true c).2.1 = diskLen disk + 1) := by
  refine ⟨rfl, rfl, ?_⟩
  intro hsync
  cases disk with
  | none =>
      simp only [Option.getD_none] at hsync
      simp [log_message, diskLen, ← hsync]
  | some entries =>
      simp only [Option.getD_some] at hsync
      simp [log_message, diskLen, hsync]

/-- Witness for the amended C7: the first successful append on a fresh
logger takes the absent file to a one-entry array. -/
theorem c7_amended_logger_append_witness :
    diskLen (log_message logSt0 none true logCall1).2.1 = diskLen none + 1 :=
  (c7_amended_logger_append logSt0 none logCall1).2.2 rfl

/-- Membership `key in dict` evaluates to whether the lookup succeeds. -/
@[simp]
theorem pyIn_obj (key : String) (kvs : List (String × Json)) :
    pyIn key (Json.obj kvs) = Except.ok (kvs.lookup key).isSome := by
  simp [pyIn, any_key_eq_isSome_lookup]

/-- Binding a successful `Except` computation just continues. -/
@[simp]
theorem ok_bind {α β : Type} (a : α) (f : α → Except PyError β) :
    (Except.ok a : Except PyError α) >>= f = f a := rfl

/-- What a shaped chunk can look like: an object whose optional `message`
member is an object whose optional `content` member is a string. -/
theorem chunkShaped_cases {c : Json} (h : chunkShaped c = true) :
    ∃ kvs, c = Json.obj kvs ∧
      (kvs.lookup "message" = none ∨
       ∃ mkvs, kvs.lookup "message" = some (Json.obj mkvs) ∧
         (mkvs.lookup "content" = none ∨
          ∃ s, mkvs.lookup "content" = some (Json.str s))) := by
  cases c with
  | obj kvs =>
      refine ⟨kvs, rfl, ?_⟩
      cases hm : kvs.lookup "message" with
      | none => exact Or.inl rfl
      | some m =>
          cases m with
          | obj mkvs =>
              refine Or.inr ⟨mkvs, rfl, ?_⟩
              cases hc : mkvs.lookup "content" with
              | none => exact Or.inl rfl
              | some cv =>
                  cases cv with
                  | str s => exact Or.inr ⟨s, rfl⟩
                  | null => simp [chunkShaped, hm, hc] at h
                  | bool b => simp [chunkShaped, hm, hc] at h
                  | num q => simp [chunkShaped, hm, hc] at h
                  | arr xs => simp [chunkShaped, hm, hc] at h
                  | obj o => simp [chunkShaped, hm, hc] at h
          | null => simp [chunkShaped, hm] at h
          | bool b => simp [chunkShaped, hm] at h
          | num q => simp [chunkShaped, hm] at h
          | str s => simp [chunkShaped, hm] at h
          | arr xs => simp [chunkShaped, hm] at h
  | null => simp [chunkShaped] at h
  | bool b => simp [chunkShaped] at h
  | num q => simp [chunkShaped] at h
  | str s => simp [chunkShaped] at h
  | arr xs => simp [chunkShaped] at h

/-- Claim C9: over any line-delimited streaming body whose parseable lines
are chunks of the response shape, the read loop skips every empty or
JSON-malformed line without aborting, accumulates the chunks' contents in
order, and stops at the first chunk whose `done` flag is truthy — the
result is exactly `collectUntilDone` of the surviving chunks. -/
theorem c9_stream_loop_skip_accumulate_stop (parse : String → Option Json)
    (lines : List String)
    (h : ∀ l ∈ lines, l = "" ∨ (parse l).all chunkShaped = true) :
    ∀ acc, streamLoop parse lines acc =
      Except.ok (acc ++ collectUntilDone
        (lines.filterMap (fun l => if l = "" then none else parse l))) := by
  induction lines with
  | nil =>
      intro acc
      simp [streamLoop, collectUntilDone, String.append_empty]
  | cons l rest ih =>
      have hrest := fun x hx => h x (List.mem_cons_of_mem _ hx)
      have hl := h l (List.mem_cons_self _ _)
      intro acc
      by_cases hle : l = ""
      · subst hle
        rw [streamLoop, if_pos rfl, List.filterMap_cons]
        simp only [if_pos rfl]
        exact ih hrest acc
      · cases hp : parse l with
        | none =>
            rw [streamLoop, if_neg hle, hp, List.filterMap_cons]
            simp only [if_neg hle, hp]
            exact ih hrest acc
        | some c =>
            have hshape : chunkShaped c = true := by
              rcases hl with hl | hl
              · exact absurd hl hle
              · rw [hp] at hl
                simpa [Option.all] using hl
            rcases chunkShaped_cases hshape with ⟨kvs, rfl, hform⟩
            rw [streamLoop, if_neg hle, hp, List.filterMap_cons]
            simp only [if_neg hle, hp]
            rcases hform with hm | ⟨mkvs, hm, hcnt⟩
            · cases hd : truthy ((kvs.lookup "done").getD (Json.bool false)) with
              | true =>
                  simp [pyIn_obj, hm, pyGetDefault, hd, collectUntilDone,
                    chunkContent, chunkDone, String.append_empty]
              | false =>
                  simp [pyIn_obj, hm, pyGetDefault, hd, collectUntilDone,
                    chunkContent, chunkDone, ih hrest, String.empty_append]
            · rcases hcnt with hc2 | ⟨s, hc2⟩
              · cases hd : truthy ((kvs.lookup "done").getD (Json.bool false)) with
                | true =>
                    simp [pyIn_obj, hm, hc2, pySubscript, pyGetDefault, hd,
                      collectUntilDone, chunkContent, chunkDone,
                      String.append_empty]
                | false =>
                    simp [pyIn_obj, hm, hc2, pySubscript, pyGetDefault, hd,
                      collectUntilDone, chunkContent, chunkDone, ih hrest,
                      String.empty_append]
              · cases hd : truthy ((kvs.lookup "done").getD (Json.bool false)) with
                | true =>
                    simp [pyIn_obj, hm, hc2, pySubscript, pyGetDefault, hd,
                      collectUntilDone, chunkContent, chunkDone,
                      String.append_empty]
                | false =>
                    simp [pyIn_obj, hm, hc2, pySubscript, pyGetDefault, hd,
                      collectUntilDone, chunkContent, chunkDone, ih hrest,
                      String.append_assoc]

/-- First witness chunk: content `"Hel"`, not done. -/
def chunkA : Json :=
  Json.obj [("message", Json.obj [("content", Json.str "Hel")]), ("done", Json.bool false)]

/-- Second witness chunk: content `"lo"`, done. -/
def chunkB : Json :=
  Json.obj [("message", Json.obj [("content", Json.str "lo")]), ("done", Json.bool true)]

/-- Third witness chunk, sent after completion; its content must not be
accumulated. -/
def chunkC : Json :=
  Json.obj [("message", Json.obj [("content", Json.str "XXX")]), ("done", Json.bool false)]

/-- Serialized form of `chunkA`. -/
def lineA : String := "\x7b\"message\": \x7b\"content\": \"Hel\"\x7d, \"done\": false\x7d"

/-- Serialized form of `chunkB`. -/
def lineB : String := "\x7b\"message\": \x7b\"content\": \"lo\"\x7d, \"done\": true\x7d"

/-- Serialized form of `chunkC`. -/
def lineC : String := "\x7b\"message\": \x7b\"content\": \"XXX\"\x7d, \"done\": false\x7d"

/-- Oracle for `json.loads` on the three witness lines; every other line (including
the malformed `"data: oops"`) raises `JSONDecodeError`. -/
def parseC9 : String → Option Json := fun s =>
  if s = lineA then some chunkA
  else if s = lineB then some chunkB
  else if s = lineC then some chunkC
  else none

/-- A streaming body with an empty line, a malformed line, two chunks up
to the done flag, and a trailing chunk that must be ignored. -/
def linesC9 : List String := ["", "data: oops", lineA, lineB, lineC]

/-- Witness for C9: the loop skips the empty and malformed lines,
accumulates `"Hel" ++ "lo"`, and stops at the done chunk, ignoring the
trailing one. -/
theorem c9_stream_loop_skip_accumulate_stop_witness :
    streamLoop parseC9 linesC9 "" = Except.ok "Hello" := by
  have h := c9_stream_loop_skip_accumulate_stop parseC9 linesC9 (by decide) ""
  rw [h]
  rfl

end OllamaDemo
